/-
  Verification of the dynamic-rank AD (Sacado FAD) view remapping and
  dimension-bookkeeping layer of Kokkos_DynRankView_Fad.hpp
  (packages/sacado/src), shallowly embedded in Lean 4.

  The embedding follows the C++ source:
  - `size_t` values are modelled as `Nat`; the sentinel `~size_t(0)` is
    `2^64 - 1` (`unspecified`).
  - The eight-slot `dimension[]` / `stride[]` arrays and the
    `ViewDimension` fields `N0..N7` / `ViewStride` fields `S0..S7` are
    modelled as eight-field records with a `Nat`-indexed getter.
  - Compile-time template dispatch on rank and on the static derivative
    width becomes runtime dispatch on `Nat` parameters, functionally
    equivalent since both are known before each call.
  - Mutating `eval(dst, src)` member functions become pure functions
    returning the new destination.
-/
import Mathlib

namespace DynRankFad

/-- The "unspecified" sentinel `~size_t(0)` for 64-bit `size_t`. -/
def unspecified : Nat := 2 ^ 64 - 1

/-- Eight dimension slots, mirroring `ViewDimension`'s `N0..N7` and the
layouts' `dimension[0..7]` array. -/
structure Dims8 where
  N0 : Nat
  N1 : Nat
  N2 : Nat
  N3 : Nat
  N4 : Nat
  N5 : Nat
  N6 : Nat
  N7 : Nat
deriving DecidableEq, Repr

/-- Eight stride slots, mirroring `ViewStride`'s `S0..S7` and the
layouts' `stride[0..7]` array. -/
structure Strides8 where
  S0 : Nat
  S1 : Nat
  S2 : Nat
  S3 : Nat
  S4 : Nat
  S5 : Nat
  S6 : Nat
  S7 : Nat
deriving DecidableEq, Repr

/-- `dimension[i]` array access (also `m_dim.extent(i)`); indices ≥ 8 do
not occur in the source. -/
def dimAt (d : Dims8) (i : Nat) : Nat :=
  match i with
  | 0 => d.N0
  | 1 => d.N1
  | 2 => d.N2
  | 3 => d.N3
  | 4 => d.N4
  | 5 => d.N5
  | 6 => d.N6
  | 7 => d.N7
  | _ => 0

/-- `dimension[i] = v` array write. -/
def setDimAt (d : Dims8) (i : Nat) (v : Nat) : Dims8 :=
  match i with
  | 0 => { d with N0 := v }
  | 1 => { d with N1 := v }
  | 2 => { d with N2 := v }
  | 3 => { d with N3 := v }
  | 4 => { d with N4 := v }
  | 5 => { d with N5 := v }
  | 6 => { d with N6 := v }
  | 7 => { d with N7 := v }
  | _ => d

/-- `stride[i]` array access. -/
def strideAt (s : Strides8) (i : Nat) : Nat :=
  match i with
  | 0 => s.S0
  | 1 => s.S1
  | 2 => s.S2
  | 3 => s.S3
  | 4 => s.S4
  | 5 => s.S5
  | 6 => s.S6
  | 7 => s.S7
  | _ => 0

/-- `DynRankDimTraits<ViewSpecializeSacadoFad>::computeRank`: the cascaded
conditional from the source, translated clause for clause. -/
def computeRank (N0 N1 N2 N3 N4 N5 N6 N7 : Nat) : Nat :=
  if N7 = unspecified ∧ N6 = unspecified ∧ N5 = unspecified ∧ N4 = unspecified ∧
     N3 = unspecified ∧ N2 = unspecified ∧ N1 = unspecified ∧ N0 = unspecified then 0
  else if N7 = unspecified ∧ N6 = unspecified ∧ N5 = unspecified ∧ N4 = unspecified ∧
     N3 = unspecified ∧ N2 = unspecified ∧ N1 = unspecified then 0
  else if N7 = unspecified ∧ N6 = unspecified ∧ N5 = unspecified ∧ N4 = unspecified ∧
     N3 = unspecified ∧ N2 = unspecified then 1
  else if N7 = unspecified ∧ N6 = unspecified ∧ N5 = unspecified ∧ N4 = unspecified ∧
     N3 = unspecified then 2
  else if N7 = unspecified ∧ N6 = unspecified ∧ N5 = unspecified ∧ N4 = unspecified then 3
  else if N7 = unspecified ∧ N6 = unspecified ∧ N5 = unspecified then 4
  else if N7 = unspecified ∧ N6 = unspecified then 5
  else if N7 = unspecified then 6
  else 7

/-- The layout-level overload of `computeRank`, reading the eight
dimension slots of a layout. -/
def computeRankL (d : Dims8) : Nat :=
  computeRank d.N0 d.N1 d.N2 d.N3 d.N4 d.N5 d.N6 d.N7

theorem computeRank_le_seven (N0 N1 N2 N3 N4 N5 N6 N7 : Nat) :
    computeRank N0 N1 N2 N3 N4 N5 N6 N7 ≤ 7 := by
  unfold computeRank
  split_ifs <;> omega

/-- "k leading specified slots followed by (8−k) unspecified slots":
slots below `k` differ from the sentinel, slots from `k` on equal it. -/
def leadingSpec (k : Nat) (d : Dims8) : Prop :=
  (∀ i, i < 8 → i < k → dimAt d i ≠ unspecified) ∧
  (∀ i, i < 8 → k ≤ i → dimAt d i = unspecified)

instance (k : Nat) (d : Dims8) : Decidable (leadingSpec k d) := by
  unfold leadingSpec; infer_instance

/-- Helper lemma: on a vector with `k` leading specified slots,
`computeRank` returns `k - 1` (so 0 for both k = 0 and k = 1). -/
theorem computeRankL_leadingSpec (k : Nat) (d : Dims8)
    (hk : k ≤ 8) (h : leadingSpec k d) : computeRankL d = k - 1 := by
  obtain ⟨h1, h2⟩ := h
  have E : ∀ i, i < 8 →
      (i < k ∧ dimAt d i ≠ unspecified) ∨ (k ≤ i ∧ dimAt d i = unspecified) := by
    intro i hi
    rcases Nat.lt_or_ge i k with hik | hik
    · exact .inl ⟨hik, h1 i hi hik⟩
    · exact .inr ⟨hik, h2 i hi hik⟩
  have E0 := E 0 (by omega)
  have E1 := E 1 (by omega)
  have E2 := E 2 (by omega)
  have E3 := E 3 (by omega)
  have E4 := E 4 (by omega)
  have E5 := E 5 (by omega)
  have E6 := E 6 (by omega)
  have E7 := E 7 (by omega)
  simp only [dimAt] at E0 E1 E2 E3 E4 E5 E6 E7
  interval_cases k <;>
    (norm_num at E0 E1 E2 E3 E4 E5 E6 E7; simp_all [computeRankL, computeRank])

/-- A row-major/column-major layout holds only the dimension array; an
explicit-stride layout additionally holds the parallel stride array. -/
structure LayoutStrideDesc where
  dimension : Dims8
  stride : Strides8
deriving DecidableEq, Repr

/-- `createLayout` for `LayoutLeft`/`LayoutRight`: default every
unspecified slot to 1, then move the extent found at `fad_dim`
(= `computeRank(layout)`) into slot 7, leaving 1 at its old position.
`fad_size` is read from the ORIGINAL layout, as in the source. -/
def createLayoutLR (dims : Dims8) : Dims8 :=
  let l : Dims8 :=
    { N0 := if dims.N0 ≠ unspecified then dims.N0 else 1
      N1 := if dims.N1 ≠ unspecified then dims.N1 else 1
      N2 := if dims.N2 ≠ unspecified then dims.N2 else 1
      N3 := if dims.N3 ≠ unspecified then dims.N3 else 1
      N4 := if dims.N4 ≠ unspecified then dims.N4 else 1
      N5 := if dims.N5 ≠ unspecified then dims.N5 else 1
      N6 := if dims.N6 ≠ unspecified then dims.N6 else 1
      N7 := if dims.N7 ≠ unspecified then dims.N7 else 1 }
  let fad_dim := computeRankL dims
  let fad_size := dimAt dims fad_dim
  setDimAt (setDimAt l fad_dim 1) 7 fad_size

/-- `createLayout` for `LayoutStride`: the constructor call copies every
`stride[i]` verbatim alongside the defaulted dimensions; afterwards only
the dimension array is touched (`l.dimension[fad_dim] = 1;
l.dimension[7] = fad_size`). -/
def createLayoutStride (layout : LayoutStrideDesc) : LayoutStrideDesc :=
  let dims := layout.dimension
  let l : Dims8 :=
    { N0 := if dims.N0 ≠ unspecified then dims.N0 else 1
      N1 := if dims.N1 ≠ unspecified then dims.N1 else 1
      N2 := if dims.N2 ≠ unspecified then dims.N2 else 1
      N3 := if dims.N3 ≠ unspecified then dims.N3 else 1
      N4 := if dims.N4 ≠ unspecified then dims.N4 else 1
      N5 := if dims.N5 ≠ unspecified then dims.N5 else 1
      N6 := if dims.N6 ≠ unspecified then dims.N6 else 1
      N7 := if dims.N7 ≠ unspecified then dims.N7 else 1 }
  let fad_dim := computeRankL dims
  let fad_size := dimAt dims fad_dim
  { dimension := setDimAt (setDimAt l fad_dim 1) 7 fad_size
    stride := layout.stride }

/-- `AssignDim7<StaticDim>::eval`: writes `dst.N7 = src_dim` only in the
`StaticDim = 0` (dynamic derivative width) specialization; every nonzero
`StaticDim` instantiates the no-op primary template. -/
def assignDim7 (StaticDim : Nat) (dst : Dims8) (src_dim : Nat) : Dims8 :=
  if StaticDim = 0 then { dst with N7 := src_dim } else dst

/-- A view-offset descriptor: dimension plus stride block
(`m_dim`, `m_stride`), as mutated by `AssignFadDimStride::eval`. -/
structure ViewOffsetDesc where
  m_dim : Dims8
  m_stride : Strides8
deriving DecidableEq, Repr

/-- `AssignFadDimStride<rank, StaticDim>::eval(dst, src)` as a pure
function: one arm per rank specialization 0..7, each writing the fields
exactly as the source does. Ranks ≥ 8 have no specialization in the
source (they cannot be instantiated); the unused arm returns `dst`. -/
def assignFadDimStride (rank StaticDim : Nat) (dst src : ViewOffsetDesc) :
    ViewOffsetDesc :=
  match rank with
  | 0 =>
    { m_stride := { S0 := 0, S1 := 0, S2 := 0, S3 := 0
                    S4 := 0, S5 := 0, S6 := 0, S7 := src.m_stride.S0 }
      m_dim := assignDim7 StaticDim
        { N0 := 1, N1 := 1, N2 := 1, N3 := 1
          N4 := 1, N5 := 1, N6 := 1, N7 := dst.m_dim.N7 } src.m_dim.N0 }
  | 1 =>
    { m_stride := { S0 := src.m_stride.S0, S1 := 0, S2 := 0, S3 := 0
                    S4 := 0, S5 := 0, S6 := 0, S7 := src.m_stride.S1 }
      m_dim := assignDim7 StaticDim
        { N0 := src.m_dim.N0, N1 := 1, N2 := 1, N3 := 1
          N4 := 1, N5 := 1, N6 := 1, N7 := dst.m_dim.N7 } src.m_dim.N1 }
  | 2 =>
    { m_stride := { S0 := src.m_stride.S0, S1 := src.m_stride.S1, S2 := 0, S3 := 0
                    S4 := 0, S5 := 0, S6 := 0, S7 := src.m_stride.S2 }
      m_dim := assignDim7 StaticDim
        { N0 := src.m_dim.N0, N1 := src.m_dim.N1, N2 := 1, N3 := 1
          N4 := 1, N5 := 1, N6 := 1, N7 := dst.m_dim.N7 } src.m_dim.N2 }
  | 3 =>
    { m_stride := { S0 := src.m_stride.S0, S1 := src.m_stride.S1
                    S2 := src.m_stride.S2, S3 := 0
                    S4 := 0, S5 := 0, S6 := 0, S7 := src.m_stride.S3 }
      m_dim := assignDim7 StaticDim
        { N0 := src.m_dim.N0, N1 := src.m_dim.N1, N2 := src.m_dim.N2, N3 := 1
          N4 := 1, N5 := 1, N6 := 1, N7 := dst.m_dim.N7 } src.m_dim.N3 }
  | 4 =>
    { m_stride := { S0 := src.m_stride.S0, S1 := src.m_stride.S1
                    S2 := src.m_stride.S2, S3 := src.m_stride.S3
                    S4 := 0, S5 := 0, S6 := 0, S7 := src.m_stride.S4 }
      m_dim := assignDim7 StaticDim
        { N0 := src.m_dim.N0, N1 := src.m_dim.N1, N2 := src.m_dim.N2
          N3 := src.m_dim.N3
          N4 := 1, N5 := 1, N6 := 1, N7 := dst.m_dim.N7 } src.m_dim.N4 }
  | 5 =>
    { m_stride := { S0 := src.m_stride.S0, S1 := src.m_stride.S1
                    S2 := src.m_stride.S2, S3 := src.m_stride.S3
                    S4 := src.m_stride.S4, S5 := 0, S6 := 0, S7 := src.m_stride.S5 }
      m_dim := assignDim7 StaticDim
        { N0 := src.m_dim.N0, N1 := src.m_dim.N1, N2 := src.m_dim.N2
          N3 := src.m_dim.N3, N4 := src.m_dim.N4
          N5 := 1, N6 := 1, N7 := dst.m_dim.N7 } src.m_dim.N5 }
  | 6 =>
    { m_stride := { S0 := src.m_stride.S0, S1 := src.m_stride.S1
                    S2 := src.m_stride.S2, S3 := src.m_stride.S3
                    S4 := src.m_stride.S4, S5 := src.m_stride.S5
                    S6 := 0, S7 := src.m_stride.S6 }
      m_dim := assignDim7 StaticDim
        { N0 := src.m_dim.N0, N1 := src.m_dim.N1, N2 := src.m_dim.N2
          N3 := src.m_dim.N3, N4 := src.m_dim.N4, N5 := src.m_dim.N5
          N6 := 1, N7 := dst.m_dim.N7 } src.m_dim.N6 }
  | 7 =>
    { m_stride := { S0 := src.m_stride.S0, S1 := src.m_stride.S1
                    S2 := src.m_stride.S2, S3 := src.m_stride.S3
                    S4 := src.m_stride.S4, S5 := src.m_stride.S5
                    S6 := src.m_stride.S6, S7 := src.m_stride.S7 }
      m_dim := assignDim7 StaticDim
        { N0 := src.m_dim.N0, N1 := src.m_dim.N1, N2 := src.m_dim.N2
          N3 := src.m_dim.N3, N4 := src.m_dim.N4, N5 := src.m_dim.N5
          N6 := src.m_dim.N6, N7 := dst.m_dim.N7 } src.m_dim.N7 }
  | _ => dst

/-- `AssignFadDim7<FadStaticDim>::eval(dst, src, dim)`: writes
`dst.m_dim.N7 = src.m_dim.extent(dim)` only in the `FadStaticDim = 0`
specialization; every nonzero width instantiates the no-op primary
template. -/
def assignFadDim7 (FadStaticDim : Nat) (dst src : Dims8) (dim : Nat) : Dims8 :=
  if FadStaticDim = 0 then { dst with N7 := dimAt src dim } else dst

/-- `AssignDim<rank, FadStaticDim>::eval(dst, src)` (the dimension-only
transfer used by View→DynRankView assignment): one arm per rank
specialization 0..7. Ranks ≥ 8 have no specialization in the source. -/
def assignDim (rank FadStaticDim : Nat) (dst src : Dims8) : Dims8 :=
  match rank with
  | 0 =>
    assignFadDim7 FadStaticDim
      { N0 := 1, N1 := 1, N2 := 1, N3 := 1
        N4 := 1, N5 := 1, N6 := 1, N7 := dst.N7 } src 0
  | 1 =>
    assignFadDim7 FadStaticDim
      { N0 := src.N0, N1 := 1, N2 := 1, N3 := 1
        N4 := 1, N5 := 1, N6 := 1, N7 := dst.N7 } src 1
  | 2 =>
    assignFadDim7 FadStaticDim
      { N0 := src.N0, N1 := src.N1, N2 := 1, N3 := 1
        N4 := 1, N5 := 1, N6 := 1, N7 := dst.N7 } src 2
  | 3 =>
    assignFadDim7 FadStaticDim
      { N0 := src.N0, N1 := src.N1, N2 := src.N2, N3 := 1
        N4 := 1, N5 := 1, N6 := 1, N7 := dst.N7 } src 3
  | 4 =>
    assignFadDim7 FadStaticDim
      { N0 := src.N0, N1 := src.N1, N2 := src.N2, N3 := src.N3
        N4 := 1, N5 := 1, N6 := 1, N7 := dst.N7 } src 4
  | 5 =>
    assignFadDim7 FadStaticDim
      { N0 := src.N0, N1 := src.N1, N2 := src.N2, N3 := src.N3
        N4 := src.N4, N5 := 1, N6 := 1, N7 := dst.N7 } src 5
  | 6 =>
    assignFadDim7 FadStaticDim
      { N0 := src.N0, N1 := src.N1, N2 := src.N2, N3 := src.N3
        N4 := src.N4, N5 := src.N5, N6 := 1, N7 := dst.N7 } src 6
  | 7 =>
    assignFadDim7 FadStaticDim
      { N0 := src.N0, N1 := src.N1, N2 := src.N2, N3 := src.N3
        N4 := src.N4, N5 := src.N5, N6 := src.N6, N7 := dst.N7 } src 7
  | _ => dst

/-- The mapping state of a (dynamic-rank) FAD view that assignment and
subview manipulate: offset descriptor, the scalar derivative-size and
derivative-stride fields, the storage handle (an address), and the
runtime rank. -/
structure FadViewMap where
  m_offset : ViewOffsetDesc
  m_fad_size : Nat
  m_fad_stride : Nat
  m_handle : Nat
  m_rank : Nat
deriving DecidableEq, Repr

/-- `assign_fad_size<S>`: the `S = ViewSpecializeSacadoFad` overload
copies `m_fad_size` and `m_fad_stride` from the source; the other
overload is a no-op. `dstIsFad` stands for the compile-time test
`is_same<S, ViewSpecializeSacadoFad>`. -/
def assignFadSize (dstIsFad : Bool) (dst src : FadViewMap) : FadViewMap :=
  if dstIsFad then
    { dst with m_fad_size := src.m_fad_size, m_fad_stride := src.m_fad_stride }
  else dst

/-- `ViewMapping<DstTraits,SrcTraits,ViewToDynRankViewTag>::assign`:
transfer the dimensions via `AssignDim`, share the handle, take the
source's static rank, copy the stride block verbatim, then run
`assign_fad_size`. -/
def viewToDynRankViewAssign (srcRank FadStaticDim : Nat) (dstIsFad : Bool)
    (dst src : FadViewMap) : FadViewMap :=
  let d1 : FadViewMap :=
    { dst with
      m_offset :=
        { m_dim := assignDim srcRank FadStaticDim dst.m_offset.m_dim src.m_offset.m_dim
          m_stride := src.m_offset.m_stride }
      m_handle := src.m_handle
      m_rank := srcRank }
  assignFadSize dstIsFad d1 src

/-- The default-constructed `ret_type dst` of the subview routine:
zero-initialized offset descriptor. -/
def zeroOffset : ViewOffsetDesc :=
  { m_dim := { N0 := 0, N1 := 0, N2 := 0, N3 := 0, N4 := 0, N5 := 0, N6 := 0, N7 := 0 }
    m_stride := { S0 := 0, S1 := 0, S2 := 0, S3 := 0, S4 := 0, S5 := 0, S6 := 0, S7 := 0 } }

/-- `ViewMapping<DynRankSubviewTag,...>::subview`, as far as it builds
the destination mapping. `tempdst` is the intermediate
`dst_offset_type tempdst(src.m_map.m_offset, extents)` computed by the
external `ViewOffset` constructor, and `handleOffset` the scalar offset
`src.m_map.m_offset(extents.domain_offset(0..7))`; both are external
collaborators of this core. `R0..R6` are the `is_integral_extent`
flags, `rank` their count, and `src_rank` the source's runtime rank. -/
def subviewMap (rank FadStaticDim : Nat) (src : FadViewMap)
    (tempdst : ViewOffsetDesc) (handleOffset : Nat) (src_rank : Nat)
    (R0 R1 R2 R3 R4 R5 R6 : Bool) : FadViewMap :=
  { m_offset := assignFadDimStride rank FadStaticDim zeroOffset tempdst
    m_handle := src.m_handle + handleOffset
    m_fad_size := src.m_fad_size
    m_fad_stride := src.m_fad_stride
    m_rank :=
      (if src_rank > 0 then R0.toNat else 0) +
      (if src_rank > 1 then R1.toNat else 0) +
      (if src_rank > 2 then R2.toNat else 0) +
      (if src_rank > 3 then R3.toNat else 0) +
      (if src_rank > 4 then R4.toNat else 0) +
      (if src_rank > 5 then R5.toNat else 0) +
      (if src_rank > 6 then R6.toNat else 0) }

/-- The three supported layout kinds (compile-time `array_layout`). -/
inductive LayoutKind where
  | left
  | right
  | stride
deriving DecidableEq, Repr

/-- The action chosen by the view-to-view `deep_copy` dispatch. Only
`fatal` raises; every other outcome performs (at most) the copy it
names, and the dispatch performs no copy before branch selection. -/
inductive CopyPath where
  | noop
  | scalarByteCopy (nbytes : Nat)
  | contigByteCopy (nbytes : Nat)
  | stridedByteCopy (nbytes : Nat)
  | remapDst
  | remapSrc
  | fatal
deriving DecidableEq, Repr

/-- The inputs the `deep_copy` dispatch inspects: data addresses, runtime
ranks, compile-time type/layout facts, spans, eight dimensions and eight
strides per side, the two accessibility predicates, and element sizes. -/
structure CopyState where
  dstData : Nat
  srcData : Nat
  dstRank : Nat
  srcRank : Nat
  sameValueType : Bool
  dstLayout : LayoutKind
  srcLayout : LayoutKind
  dstSpan : Nat
  srcSpan : Nat
  dstDim : Dims8
  srcDim : Dims8
  dstStride : Strides8
  srcStride : Strides8
  dstExecCanAccessSrc : Bool
  srcExecCanAccessDst : Bool
  valueSize : Nat
  innerValueSize : Nat
deriving DecidableEq, Repr

/-- `dimension_0() == ... && dimension_7() == ...`, slot for slot. -/
def dimsEqual (a b : Dims8) : Prop :=
  a.N0 = b.N0 ∧ a.N1 = b.N1 ∧ a.N2 = b.N2 ∧ a.N3 = b.N3 ∧
  a.N4 = b.N4 ∧ a.N5 = b.N5 ∧ a.N6 = b.N6 ∧ a.N7 = b.N7

/-- `stride_0() == ... && stride_7() == ...`, slot for slot. -/
def stridesEqual (a b : Strides8) : Prop :=
  a.S0 = b.S0 ∧ a.S1 = b.S1 ∧ a.S2 = b.S2 ∧ a.S3 = b.S3 ∧
  a.S4 = b.S4 ∧ a.S5 = b.S5 ∧ a.S6 = b.S6 ∧ a.S7 = b.S7

instance (a b : Dims8) : Decidable (dimsEqual a b) := by
  unfold dimsEqual; infer_instance

instance (a b : Strides8) : Decidable (stridesEqual a b) := by
  unfold stridesEqual; infer_instance

/-- Branch 1: `rank(src) == 0 && rank(dst) == 0`. -/
def scalarBranch (s : CopyState) : Prop :=
  s.srcRank = 0 ∧ s.dstRank = 0

/-- Branch 2 guard: same value type, and (same LayoutLeft/LayoutRight
layout, or both rank 1), equal spans and equal dimensions. -/
def contigBranch (s : CopyState) : Prop :=
  s.sameValueType = true ∧
  ((s.dstLayout = s.srcLayout ∧
      (s.dstLayout = LayoutKind.left ∨ s.dstLayout = LayoutKind.right)) ∨
    (s.dstRank = 1 ∧ s.srcRank = 1)) ∧
  s.dstSpan = s.srcSpan ∧
  dimsEqual s.dstDim s.srcDim

/-- Branch 3 guard: same value type, and (same LayoutStride layout, or
both rank 1), equal spans, dimensions, and all eight strides. -/
def stridedBranch (s : CopyState) : Prop :=
  s.sameValueType = true ∧
  ((s.dstLayout = s.srcLayout ∧ s.dstLayout = LayoutKind.stride) ∨
    (s.dstRank = 1 ∧ s.srcRank = 1)) ∧
  s.dstSpan = s.srcSpan ∧
  dimsEqual s.dstDim s.srcDim ∧
  stridesEqual s.dstStride s.srcStride

instance (s : CopyState) : Decidable (scalarBranch s) := by
  unfold scalarBranch; infer_instance

instance (s : CopyState) : Decidable (contigBranch s) := by
  unfold contigBranch; infer_instance

instance (s : CopyState) : Decidable (stridedBranch s) := by
  unfold stridedBranch; infer_instance

/-- The view-to-view `Experimental::deep_copy` dispatch: the guarded
if/else-if cascade from the source, with each branch's action (or the
final `throw_runtime_exception`) as the result. The outer address test
makes the self-copy a no-op. -/
def deepCopyPath (s : CopyState) : CopyPath :=
  if s.dstData ≠ s.srcData then
    if scalarBranch s then CopyPath.scalarByteCopy s.valueSize
    else if contigBranch s then CopyPath.contigByteCopy (s.innerValueSize * s.dstSpan)
    else if stridedBranch s then CopyPath.stridedByteCopy (s.innerValueSize * s.dstSpan)
    else if s.dstExecCanAccessSrc = true then CopyPath.remapDst
    else if s.srcExecCanAccessDst = true then CopyPath.remapSrc
    else CopyPath.fatal
  else CopyPath.noop

/-- C1 (counterexample): with exactly one leading specified slot
(k = 1, `N0 = 5`, the rest unspecified), `computeRank` returns 0, not
the k = 1 the claim requires. -/
theorem C1_counterexample :
    computeRank 5 unspecified unspecified unspecified unspecified
      unspecified unspecified unspecified ≠ 1 := by
  decide

/-- C1 (amended): for a DimensionVector with k leading specified slots
followed by (8−k) unspecified slots, `computeRank` returns k − 1 (so 0
for k = 0 and for k = 1, and 7 when all eight slots are specified) —
one less than the count of specified slots, the last specified slot
being the AD derivative dimension. -/
theorem C1_rank_of_leading_specified (k : Nat) (d : Dims8)
    (hk : k ≤ 8) (h : leadingSpec k d) :
    computeRankL d = k - 1 :=
  computeRankL_leadingSpec k d hk h

/-- C1 witness: k = 3 leading specified slots (4, 5, 6) give rank 2. -/
theorem C1_rank_of_leading_specified_witness :
    computeRankL
      { N0 := 4, N1 := 5, N2 := 6, N3 := unspecified, N4 := unspecified
        N5 := unspecified, N6 := unspecified, N7 := unspecified } = 3 - 1 :=
  C1_rank_of_leading_specified 3 _ (by norm_num) (by decide)

/-- In the source, a nonzero static derivative width means slot 7 of
both descriptors is the same compile-time constant (`ViewDimension`'s
static extent), so the skipped assignment cannot change the value. This
typing invariant appears as a hypothesis below. -/
def staticWidthInvariant (StaticDim : Nat) (dstN7 srcAtRank : Nat) : Prop :=
  StaticDim = 0 ∨ (dstN7 = StaticDim ∧ srcAtRank = StaticDim)

theorem assignDim7_N7 (sd : Nat) (pre : Dims8) (v : Nat)
    (h : sd = 0 ∨ pre.N7 = v) : (assignDim7 sd pre v).N7 = v := by
  unfold assignDim7
  split_ifs with h0
  · rfl
  · rcases h with h | h
    · exact absurd h h0
    · exact h

theorem assignDim7_keep (sd : Nat) (pre : Dims8) (v : Nat) :
    (assignDim7 sd pre v).N0 = pre.N0 ∧ (assignDim7 sd pre v).N1 = pre.N1 ∧
    (assignDim7 sd pre v).N2 = pre.N2 ∧ (assignDim7 sd pre v).N3 = pre.N3 ∧
    (assignDim7 sd pre v).N4 = pre.N4 ∧ (assignDim7 sd pre v).N5 = pre.N5 ∧
    (assignDim7 sd pre v).N6 = pre.N6 := by
  unfold assignDim7
  split_ifs <;> simp

/-- C2: the rank-R `AssignFadDimStride` transfer copies dimension slots
0..R−1 and stride slots 0..R−1 from the source, writes extent 1 into
dimension slots R..6 and stride 0 into stride slots R..6, and routes the
source's slot-R dimension and slot-R stride into destination slot 7
(under the static-width typing invariant for slot 7). -/
theorem C2_dim_stride_transfer (R StaticDim : Nat) (dst src : ViewOffsetDesc)
    (hR : R ≤ 7)
    (hs : staticWidthInvariant StaticDim dst.m_dim.N7 (dimAt src.m_dim R)) :
    (∀ i, i < R →
      dimAt (assignFadDimStride R StaticDim dst src).m_dim i = dimAt src.m_dim i) ∧
    (∀ i, R ≤ i → i ≤ 6 →
      dimAt (assignFadDimStride R StaticDim dst src).m_dim i = 1) ∧
    dimAt (assignFadDimStride R StaticDim dst src).m_dim 7 = dimAt src.m_dim R ∧
    (∀ i, i < R →
      strideAt (assignFadDimStride R StaticDim dst src).m_stride i
        = strideAt src.m_stride i) ∧
    (∀ i, R ≤ i → i ≤ 6 →
      strideAt (assignFadDimStride R StaticDim dst src).m_stride i = 0) ∧
    strideAt (assignFadDimStride R StaticDim dst src).m_stride 7
      = strideAt src.m_stride R := by
  unfold staticWidthInvariant at hs
  interval_cases R <;>
    refine ⟨fun i hi => ?_, fun i hi hi6 => ?_, ?_, fun i hi => ?_,
      fun i hi hi6 => ?_, ?_⟩ <;>
    first
      | omega
      | (interval_cases i <;>
          (simp only [assignFadDimStride, assignDim7, dimAt, strideAt]
           <;> split_ifs <;> simp_all [dimAt]))
      | (simp only [assignFadDimStride, assignDim7, dimAt, strideAt]
         <;> split_ifs <;> simp_all [dimAt])

/-- C2 witness: rank 2, dynamic width, on concrete descriptors. -/
theorem C2_dim_stride_transfer_witness :
    (2 ≤ 7 ∧ staticWidthInvariant 0 0 7) ∧
    ((∀ i, i < 2 →
      dimAt (assignFadDimStride 2 0 zeroOffset
        { m_dim := { N0 := 4, N1 := 5, N2 := 7, N3 := 9, N4 := 9, N5 := 9, N6 := 9, N7 := 9 }
          m_stride := { S0 := 3, S1 := 12, S2 := 60, S3 := 8, S4 := 8, S5 := 8, S6 := 8, S7 := 8 } }).m_dim i
        = dimAt { N0 := 4, N1 := 5, N2 := 7, N3 := 9, N4 := 9, N5 := 9, N6 := 9, N7 := 9 } i) ∧
    (∀ i, 2 ≤ i → i ≤ 6 →
      dimAt (assignFadDimStride 2 0 zeroOffset
        { m_dim := { N0 := 4, N1 := 5, N2 := 7, N3 := 9, N4 := 9, N5 := 9, N6 := 9, N7 := 9 }
          m_stride := { S0 := 3, S1 := 12, S2 := 60, S3 := 8, S4 := 8, S5 := 8, S6 := 8, S7 := 8 } }).m_dim i = 1) ∧
    dimAt (assignFadDimStride 2 0 zeroOffset
        { m_dim := { N0 := 4, N1 := 5, N2 := 7, N3 := 9, N4 := 9, N5 := 9, N6 := 9, N7 := 9 }
          m_stride := { S0 := 3, S1 := 12, S2 := 60, S3 := 8, S4 := 8, S5 := 8, S6 := 8, S7 := 8 } }).m_dim 7
      = dimAt { N0 := 4, N1 := 5, N2 := 7, N3 := 9, N4 := 9, N5 := 9, N6 := 9, N7 := 9 } 2 ∧
    (∀ i, i < 2 →
      strideAt (assignFadDimStride 2 0 zeroOffset
        { m_dim := { N0 := 4, N1 := 5, N2 := 7, N3 := 9, N4 := 9, N5 := 9, N6 := 9, N7 := 9 }
          m_stride := { S0 := 3, S1 := 12, S2 := 60, S3 := 8, S4 := 8, S5 := 8, S6 := 8, S7 := 8 } }).m_stride i
        = strideAt { S0 := 3, S1 := 12, S2 := 60, S3 := 8, S4 := 8, S5 := 8, S6 := 8, S7 := 8 } i) ∧
    (∀ i, 2 ≤ i → i ≤ 6 →
      strideAt (assignFadDimStride 2 0 zeroOffset
        { m_dim := { N0 := 4, N1 := 5, N2 := 7, N3 := 9, N4 := 9, N5 := 9, N6 := 9, N7 := 9 }
          m_stride := { S0 := 3, S1 := 12, S2 := 60, S3 := 8, S4 := 8, S5 := 8, S6 := 8, S7 := 8 } }).m_stride i = 0) ∧
    strideAt (assignFadDimStride 2 0 zeroOffset
        { m_dim := { N0 := 4, N1 := 5, N2 := 7, N3 := 9, N4 := 9, N5 := 9, N6 := 9, N7 := 9 }
          m_stride := { S0 := 3, S1 := 12, S2 := 60, S3 := 8, S4 := 8, S5 := 8, S6 := 8, S7 := 8 } }).m_stride 7
      = strideAt { S0 := 3, S1 := 12, S2 := 60, S3 := 8, S4 := 8, S5 := 8, S6 := 8, S7 := 8 } 2) :=
  ⟨⟨by norm_num, Or.inl rfl⟩,
   C2_dim_stride_transfer 2 0 zeroOffset _ (by norm_num) (Or.inl rfl)⟩

theorem dimAt_setDimAt (d : Dims8) (i j v : Nat) (hi : i < 8) (hj : j < 8) :
    dimAt (setDimAt d i v) j = if i = j then v else dimAt d j := by
  interval_cases i <;> interval_cases j <;> simp [dimAt, setDimAt]

/-- C3: on a valid row-major/column-major input whose AD slot sits at
position p = `computeRank(layout)` (p ≤ 6, i.e. slots 0..p specified and
the rest unspecified), `createLayout` puts the original slot-p extent
into slot 7, extent 1 into slot p, and extent 1 into every other
originally-unspecified slot. -/
theorem C3_createLayout_relocates_ad_slot (p : Nat) (dims : Dims8)
    (hp : p ≤ 6) (h : leadingSpec (p + 1) dims) :
    dimAt (createLayoutLR dims) 7 = dimAt dims p ∧
    dimAt (createLayoutLR dims) p = 1 ∧
    (∀ i, i < 8 → i ≠ p → i ≠ 7 → dimAt dims i = unspecified →
      dimAt (createLayoutLR dims) i = 1) := by
  have hrank : computeRankL dims = p := by
    have := computeRankL_leadingSpec (p + 1) dims (by omega) h
    omega
  simp only [createLayoutLR, hrank]
  refine ⟨?_, ?_, ?_⟩
  · rw [dimAt_setDimAt _ _ _ _ (by omega) (by omega)]
    simp
  · rw [dimAt_setDimAt _ _ _ _ (by omega) (by omega), if_neg (by omega),
      dimAt_setDimAt _ _ _ _ (by omega) (by omega), if_pos rfl]
  · intro i hi hip hi7 hu
    rw [dimAt_setDimAt _ _ _ _ (by omega) hi, if_neg (by omega),
      dimAt_setDimAt _ _ _ _ (by omega) hi, if_neg (by omega)]
    interval_cases i <;> simp_all [dimAt]

/-- C3 witness: p = 2 with slots 0..2 specified (4, 5, 3). -/
theorem C3_createLayout_relocates_ad_slot_witness :
    (2 ≤ 6 ∧ leadingSpec (2 + 1)
      { N0 := 4, N1 := 5, N2 := 3, N3 := unspecified, N4 := unspecified
        N5 := unspecified, N6 := unspecified, N7 := unspecified }) ∧
    (dimAt (createLayoutLR
      { N0 := 4, N1 := 5, N2 := 3, N3 := unspecified, N4 := unspecified
        N5 := unspecified, N6 := unspecified, N7 := unspecified }) 7
      = dimAt
      { N0 := 4, N1 := 5, N2 := 3, N3 := unspecified, N4 := unspecified
        N5 := unspecified, N6 := unspecified, N7 := unspecified } 2 ∧
    dimAt (createLayoutLR
      { N0 := 4, N1 := 5, N2 := 3, N3 := unspecified, N4 := unspecified
        N5 := unspecified, N6 := unspecified, N7 := unspecified }) 2 = 1 ∧
    (∀ i, i < 8 → i ≠ 2 → i ≠ 7 →
      dimAt { N0 := 4, N1 := 5, N2 := 3, N3 := unspecified, N4 := unspecified
              N5 := unspecified, N6 := unspecified, N7 := unspecified } i = unspecified →
      dimAt (createLayoutLR
        { N0 := 4, N1 := 5, N2 := 3, N3 := unspecified, N4 := unspecified
          N5 := unspecified, N6 := unspecified, N7 := unspecified }) i = 1)) :=
  ⟨⟨by norm_num, by decide⟩,
   C3_createLayout_relocates_ad_slot 2 _ (by norm_num) (by decide)⟩

/-- C9 (counterexample): on the all-unspecified input, `createLayout`
reads `fad_size = layout.dimension[0]`, which is the sentinel itself,
and stores it into slot 7 — so slot 7 of the output equals the
unspecified sentinel, contradicting the claim. -/
theorem C9_counterexample :
    dimAt (createLayoutLR
      { N0 := unspecified, N1 := unspecified, N2 := unspecified
        N3 := unspecified, N4 := unspecified, N5 := unspecified
        N6 := unspecified, N7 := unspecified }) 7 = unspecified := by
  decide

/-- C9 (amended): for every row-major/column-major input with at least
one leading specified slot, every slot of `createLayout`'s output holds
a concrete extent (unspecified slots default to 1, slot 7 receives the
specified AD extent): no output slot equals the sentinel. The
all-unspecified input is excluded: there slot 7 receives the sentinel. -/
theorem C9_no_sentinel_of_specified (k : Nat) (dims : Dims8)
    (hk1 : 1 ≤ k) (hk : k ≤ 8) (h : leadingSpec k dims) :
    ∀ i, i < 8 → dimAt (createLayoutLR dims) i ≠ unspecified := by
  have hrank : computeRankL dims = k - 1 := computeRankL_leadingSpec k dims hk h
  intro i hi
  simp only [createLayoutLR, hrank]
  rw [dimAt_setDimAt _ _ _ _ (by omega) hi]
  by_cases h7 : 7 = i
  · rw [if_pos h7]
    exact h.1 (k - 1) (by omega) (by omega)
  · rw [if_neg h7, dimAt_setDimAt _ _ _ _ (by omega) hi]
    by_cases hkf : k - 1 = i
    · rw [if_pos hkf]
      decide
    · rw [if_neg hkf]
      interval_cases i <;> simp only [dimAt] <;> split_ifs <;>
        first | assumption | decide

/-- C9 witness: one specified slot (k = 1, AD extent 3). -/
theorem C9_no_sentinel_of_specified_witness :
    (1 ≤ 1 ∧ 1 ≤ 8 ∧ leadingSpec 1
      { N0 := 3, N1 := unspecified, N2 := unspecified, N3 := unspecified
        N4 := unspecified, N5 := unspecified, N6 := unspecified, N7 := unspecified }) ∧
    (∀ i, i < 8 → dimAt (createLayoutLR
      { N0 := 3, N1 := unspecified, N2 := unspecified, N3 := unspecified
        N4 := unspecified, N5 := unspecified, N6 := unspecified, N7 := unspecified }) i
        ≠ unspecified) :=
  ⟨⟨by norm_num, by norm_num, by decide⟩,
   C9_no_sentinel_of_specified 1 _ (by norm_num) (by norm_num) (by decide)⟩

/-- C4 (counterexample): a LayoutStride input whose AD slot is position
0 (stride 42 there) and whose slot-7 stride literal is 9: the output's
stride slot 7 is 9, NOT the AD slot's stride 42 — `createLayout` does
not relocate strides. -/
theorem C4_counterexample :
    strideAt (createLayoutStride
      { dimension :=
          { N0 := 4, N1 := unspecified, N2 := unspecified, N3 := unspecified
            N4 := unspecified, N5 := unspecified, N6 := unspecified
            N7 := unspecified }
        stride := { S0 := 42, S1 := 0, S2 := 0, S3 := 0
                    S4 := 0, S5 := 0, S6 := 0, S7 := 9 } }).stride 7
      ≠ strideAt
      { S0 := 42, S1 := 0, S2 := 0, S3 := 0
        S4 := 0, S5 := 0, S6 := 0, S7 := 9 } 0 := by
  decide

/-- C4 (amended): for LayoutStride inputs, `createLayout` copies the
caller-supplied stride array verbatim, slot for slot — no relocation is
applied to strides; only the dimension array has the AD extent moved to
slot 7, exactly as in the LayoutLeft/LayoutRight overload. -/
theorem C4_strides_copied_verbatim (layout : LayoutStrideDesc) :
    (createLayoutStride layout).stride = layout.stride ∧
    (createLayoutStride layout).dimension = createLayoutLR layout.dimension := by
  exact ⟨rfl, rfl⟩

/-- C5 (counterexample): the rank-0 dynamic-width rule is not
idempotent. On a source with slot-0 extent 5 and stride 3, the first
transfer puts 5 into dimension slot 7 and 3 into stride slot 7; the
second application (output as its own source) overwrites slot 7 with
the output's slot-0 values (extent 1, stride 0), changing it. -/
theorem C5_counterexample :
    assignFadDimStride 0 0
        (assignFadDimStride 0 0 zeroOffset
          { m_dim := { N0 := 5, N1 := 9, N2 := 9, N3 := 9, N4 := 9, N5 := 9, N6 := 9, N7 := 9 }
            m_stride := { S0 := 3, S1 := 9, S2 := 9, S3 := 9, S4 := 9, S5 := 9, S6 := 9, S7 := 9 } })
        (assignFadDimStride 0 0 zeroOffset
          { m_dim := { N0 := 5, N1 := 9, N2 := 9, N3 := 9, N4 := 9, N5 := 9, N6 := 9, N7 := 9 }
            m_stride := { S0 := 3, S1 := 9, S2 := 9, S3 := 9, S4 := 9, S5 := 9, S6 := 9, S7 := 9 } })
      ≠ assignFadDimStride 0 0 zeroOffset
          { m_dim := { N0 := 5, N1 := 9, N2 := 9, N3 := 9, N4 := 9, N5 := 9, N6 := 9, N7 := 9 }
            m_stride := { S0 := 3, S1 := 9, S2 := 9, S3 := 9, S4 := 9, S5 := 9, S6 := 9, S7 := 9 } } := by
  decide

/-- C5 (amended): only the rank-7 rule is idempotent under
re-application to its own output. For R ≤ 6 the re-application leaves
stride slots 0..6 intact but zeroes stride slot 7, and (in the
dynamic-width case) leaves dimension slots 0..6 intact but resets
dimension slot 7 to 1 — so it changes the output whenever the relocated
slot-R values were nontrivial; with a nonzero static width the
dimension block is unchanged. -/
theorem C5_idempotent_only_at_rank7 (R StaticDim : Nat) (dst src : ViewOffsetDesc)
    (hR : R ≤ 7) :
    (R = 7 →
      assignFadDimStride R StaticDim
          (assignFadDimStride R StaticDim dst src)
          (assignFadDimStride R StaticDim dst src)
        = assignFadDimStride R StaticDim dst src) ∧
    (R ≤ 6 →
      (assignFadDimStride R StaticDim
          (assignFadDimStride R StaticDim dst src)
          (assignFadDimStride R StaticDim dst src)).m_stride
        = { (assignFadDimStride R StaticDim dst src).m_stride with S7 := 0 } ∧
      (assignFadDimStride R StaticDim
          (assignFadDimStride R StaticDim dst src)
          (assignFadDimStride R StaticDim dst src)).m_dim
        = (if StaticDim = 0 then
            { (assignFadDimStride R StaticDim dst src).m_dim with N7 := 1 }
          else (assignFadDimStride R StaticDim dst src).m_dim)) := by
  interval_cases R <;>
    refine ⟨fun h7 => ?_, fun h6 => ⟨?_, ?_⟩⟩ <;>
    first
      | omega
      | (simp only [assignFadDimStride, assignDim7] <;> split_ifs <;> simp_all)

/-- C5 witness: at rank 7 (dynamic width) re-application is the
identity on concrete descriptors. -/
theorem C5_idempotent_only_at_rank7_witness :
    7 ≤ 7 ∧
    (7 = 7 →
      assignFadDimStride 7 0
          (assignFadDimStride 7 0 zeroOffset
            { m_dim := { N0 := 2, N1 := 3, N2 := 4, N3 := 5, N4 := 6, N5 := 7, N6 := 8, N7 := 9 }
              m_stride := { S0 := 1, S1 := 2, S2 := 6, S3 := 24, S4 := 120, S5 := 720, S6 := 5040, S7 := 40320 } })
          (assignFadDimStride 7 0 zeroOffset
            { m_dim := { N0 := 2, N1 := 3, N2 := 4, N3 := 5, N4 := 6, N5 := 7, N6 := 8, N7 := 9 }
              m_stride := { S0 := 1, S1 := 2, S2 := 6, S3 := 24, S4 := 120, S5 := 720, S6 := 5040, S7 := 40320 } })
        = assignFadDimStride 7 0 zeroOffset
            { m_dim := { N0 := 2, N1 := 3, N2 := 4, N3 := 5, N4 := 6, N5 := 7, N6 := 8, N7 := 9 }
              m_stride := { S0 := 1, S1 := 2, S2 := 6, S3 := 24, S4 := 120, S5 := 720, S6 := 5040, S7 := 40320 } }) :=
  ⟨by norm_num,
   (C5_idempotent_only_at_rank7 7 0 zeroOffset
      { m_dim := { N0 := 2, N1 := 3, N2 := 4, N3 := 5, N4 := 6, N5 := 7, N6 := 8, N7 := 9 }
        m_stride := { S0 := 1, S1 := 2, S2 := 6, S3 := 24, S4 := 120, S5 := 720, S6 := 5040, S7 := 40320 } }
      (by norm_num)).1⟩

/-- C6: a nonzero static derivative width turns the slot-7 dimension
assignment into a no-op (slot 7 keeps the destination's prior value);
a zero (dynamic) width populates slot 7 at runtime with the source's AD
extent at position R — for both the subview rule
(`AssignFadDimStride`/`AssignDim7`) and the assignment rule
(`AssignDim`/`AssignFadDim7`). -/
theorem C6_static_width_slot7_policy (R StaticDim : Nat)
    (dst src : ViewOffsetDesc) (dstD srcD : Dims8) (hR : R ≤ 7) :
    (StaticDim ≠ 0 →
      (assignFadDimStride R StaticDim dst src).m_dim.N7 = dst.m_dim.N7 ∧
      (assignDim R StaticDim dstD srcD).N7 = dstD.N7) ∧
    (StaticDim = 0 →
      (assignFadDimStride R StaticDim dst src).m_dim.N7 = dimAt src.m_dim R ∧
      (assignDim R StaticDim dstD srcD).N7 = dimAt srcD R) := by
  interval_cases R <;>
    constructor <;> intro hsd <;> constructor <;>
    simp_all [assignFadDimStride, assignDim, assignDim7, assignFadDim7, dimAt]

/-- C6 witness: at rank 3, width 5 skips the slot-7 write and width 0
performs it. -/
theorem C6_static_width_slot7_policy_witness :
    3 ≤ 7 ∧
    ((5 : Nat) ≠ 0 →
      (assignFadDimStride 3 5 zeroOffset
        { m_dim := { N0 := 2, N1 := 3, N2 := 4, N3 := 11, N4 := 9, N5 := 9, N6 := 9, N7 := 9 }
          m_stride := { S0 := 1, S1 := 2, S2 := 6, S3 := 24, S4 := 9, S5 := 9, S6 := 9, S7 := 9 } }).m_dim.N7
        = zeroOffset.m_dim.N7 ∧
      (assignDim 3 5
        { N0 := 0, N1 := 0, N2 := 0, N3 := 0, N4 := 0, N5 := 0, N6 := 0, N7 := 0 }
        { N0 := 2, N1 := 3, N2 := 4, N3 := 11, N4 := 9, N5 := 9, N6 := 9, N7 := 9 }).N7
        = ({ N0 := 0, N1 := 0, N2 := 0, N3 := 0, N4 := 0, N5 := 0, N6 := 0, N7 := 0 } : Dims8).N7) :=
  ⟨by norm_num,
   (C6_static_width_slot7_policy 3 5 zeroOffset
      { m_dim := { N0 := 2, N1 := 3, N2 := 4, N3 := 11, N4 := 9, N5 := 9, N6 := 9, N7 := 9 }
        m_stride := { S0 := 1, S1 := 2, S2 := 6, S3 := 24, S4 := 9, S5 := 9, S6 := 9, S7 := 9 } }
      { N0 := 0, N1 := 0, N2 := 0, N3 := 0, N4 := 0, N5 := 0, N6 := 0, N7 := 0 }
      { N0 := 2, N1 := 3, N2 := 4, N3 := 11, N4 := 9, N5 := 9, N6 := 9, N7 := 9 }
      (by norm_num)).1⟩

/-- Product of all eight dimension slots of a descriptor. -/
def prodDims (d : Dims8) : Nat :=
  d.N0 * d.N1 * d.N2 * d.N3 * d.N4 * d.N5 * d.N6 * d.N7

/-- C7: cross-kind assignment from a FAD source view of rank R into an
ordinary (non-FAD) destination preserves the total element count: the
product of all eight destination dimension slots after `assign` equals
the product of the source's R+1 populated slots (R spatial extents
times the AD extent at position R), under the static-width typing
invariant for slot 7. -/
theorem C7_assign_preserves_element_count (srcRank FadStaticDim : Nat)
    (dst src : FadViewMap) (hR : srcRank ≤ 7)
    (hs : staticWidthInvariant FadStaticDim dst.m_offset.m_dim.N7
      (dimAt src.m_offset.m_dim srcRank)) :
    prodDims (viewToDynRankViewAssign srcRank FadStaticDim false dst src).m_offset.m_dim
      = ((List.range (srcRank + 1)).map (dimAt src.m_offset.m_dim)).prod := by
  unfold staticWidthInvariant at hs
  interval_cases srcRank <;>
    simp only [viewToDynRankViewAssign, assignFadSize, assignDim, assignFadDim7,
      prodDims, dimAt, List.range_succ, List.range_zero, List.map, List.prod] <;>
    split_ifs <;> simp_all [dimAt] <;> ring

/-- C7 witness: a rank-2 source with extents 4 × 5 and AD extent 3. -/
theorem C7_assign_preserves_element_count_witness :
    (2 ≤ 7 ∧ staticWidthInvariant 0 0 3) ∧
    prodDims (viewToDynRankViewAssign 2 0 false
        { m_offset := zeroOffset, m_fad_size := 0, m_fad_stride := 0
          m_handle := 0, m_rank := 0 }
        { m_offset :=
            { m_dim := { N0 := 4, N1 := 5, N2 := 3, N3 := 9, N4 := 9, N5 := 9, N6 := 9, N7 := 9 }
              m_stride := { S0 := 1, S1 := 4, S2 := 20, S3 := 9, S4 := 9, S5 := 9, S6 := 9, S7 := 9 } }
          m_fad_size := 2, m_fad_stride := 1, m_handle := 100, m_rank := 2 }).m_offset.m_dim
      = ((List.range (2 + 1)).map (dimAt
          { N0 := 4, N1 := 5, N2 := 3, N3 := 9, N4 := 9, N5 := 9, N6 := 9, N7 := 9 })).prod :=
  ⟨⟨by norm_num, Or.inl rfl⟩,
   C7_assign_preserves_element_count 2 0
     { m_offset := zeroOffset, m_fad_size := 0, m_fad_stride := 0
       m_handle := 0, m_rank := 0 }
     { m_offset :=
         { m_dim := { N0 := 4, N1 := 5, N2 := 3, N3 := 9, N4 := 9, N5 := 9, N6 := 9, N7 := 9 }
           m_stride := { S0 := 1, S1 := 4, S2 := 20, S3 := 9, S4 := 9, S5 := 9, S6 := 9, S7 := 9 } }
       m_fad_size := 2, m_fad_stride := 1, m_handle := 100, m_rank := 2 }
     (by norm_num) (Or.inl rfl)⟩

/-- C8: the view-to-view `deep_copy` dispatch yields the fatal outcome
exactly when the data addresses differ, none of the three byte-copy
branches applies, and neither side's execution context can access the
other's memory — so mutual inaccessibility is the only runtime-failing
case, and on it no copy action is selected (the `fatal` outcome carries
none). -/
theorem C8_fatal_iff_mutually_inaccessible (s : CopyState) :
    deepCopyPath s = CopyPath.fatal ↔
      (s.dstData ≠ s.srcData ∧ ¬scalarBranch s ∧ ¬contigBranch s ∧
        ¬stridedBranch s ∧ s.dstExecCanAccessSrc = false ∧
        s.srcExecCanAccessDst = false) := by
  unfold deepCopyPath
  split_ifs <;> simp_all

/-- C10: a subview copies the source's derivative-size and
derivative-stride fields unchanged, and so does the cross-kind
assignment's `assign_fad_size` whenever the destination is itself
derivative-aware (both via the overload selected by
`ViewSpecializeSacadoFad`, and within the full `assign`). -/
theorem C10_fad_fields_preserved (rank FadStaticDim srcRank : Nat)
    (src dst : FadViewMap) (tempdst : ViewOffsetDesc)
    (handleOffset src_rank : Nat) (R0 R1 R2 R3 R4 R5 R6 : Bool) :
    (subviewMap rank FadStaticDim src tempdst handleOffset src_rank
        R0 R1 R2 R3 R4 R5 R6).m_fad_size = src.m_fad_size ∧
    (subviewMap rank FadStaticDim src tempdst handleOffset src_rank
        R0 R1 R2 R3 R4 R5 R6).m_fad_stride = src.m_fad_stride ∧
    (assignFadSize true dst src).m_fad_size = src.m_fad_size ∧
    (assignFadSize true dst src).m_fad_stride = src.m_fad_stride ∧
    (viewToDynRankViewAssign srcRank FadStaticDim true dst src).m_fad_size
      = src.m_fad_size ∧
    (viewToDynRankViewAssign srcRank FadStaticDim true dst src).m_fad_stride
      = src.m_fad_stride := by
  simp [subviewMap, assignFadSize, viewToDynRankViewAssign]
